import Mathlib

/-!
Shallow embedding of the forecast engine of `app.py` (V forecast model).

The engine (`generate_forecast`, app.py lines 37-100) turns driver
parameters (growth rates, retention, wage inflation, seasonality toggle)
into 12 monthly P&L records.  Python float arithmetic is modelled over ℝ;
the fractional power `(1 + g/100) ** (m/12)` is `Real.rpow`, which agrees
with CPython whenever the base is nonnegative.  For a negative base CPython
falls back to the principal complex power; `pyPow` below models that case
over ℂ.  The `EBITDA_Margin` derivation (app.py line 125) is a pandas
column division, i.e. IEEE float division where division by zero yields a
signed infinity or NaN; `PandasFloat` and `floatDiv` model that.
The advisory-revenue noise draw `np.random.normal(1.0, 0.02)` (line 74) is
modelled as an explicit sequence `noise : ℕ → ℝ` of draws, one per month.
-/

/-- The sidebar driver parameters (app.py lines 17-33). -/
structure Drivers where
  corp_growth : ℝ
  fund_growth : ℝ
  advisory_growth : ℝ
  revenue_retention : ℝ
  wage_inflation : ℝ
  q1_seasonality : Bool

/-- One output row of the forecast, with the dict keys of app.py lines 88-98
as field names. -/
structure MonthlyRecord where
  Month : String
  Month_Num : ℕ
  Rev_Corporate : ℝ
  Rev_Fund : ℝ
  Rev_Advisory : ℝ
  Total_Revenue : ℝ
  Direct_Costs : ℝ
  OpEx : ℝ
  EBITDA : ℝ

/-- Month-end labels of `pd.date_range('2025-01-01', periods=12, freq='ME')`
formatted with `strftime('%b')` (app.py lines 39, 89). -/
def monthLabel : ℕ → String
  | 1 => "Jan" | 2 => "Feb" | 3 => "Mar" | 4 => "Apr"
  | 5 => "May" | 6 => "Jun" | 7 => "Jul" | 8 => "Aug"
  | 9 => "Sep" | 10 => "Oct" | 11 => "Nov" | 12 => "Dec"
  | _ => ""

/-- Base monthly run rates (app.py lines 42-46). -/
noncomputable def base_corp : ℝ := 690 / 12

noncomputable def base_fund : ℝ := 290 / 12

noncomputable def base_adv : ℝ := 170 / 12

noncomputable def base_cost : ℝ := 520 / 12

noncomputable def base_opex : ℝ := 285 / 12

/-- Revenue retention factor `revenue_retention / 100.0` (app.py line 49). -/
noncomputable def retention_factor (revenue_retention : ℝ) : ℝ :=
  revenue_retention / 100

/-- Fractional-year compounding factor `(1 + g/100) ** (month_num/12)`
(app.py lines 57, 71, 75), as a real power. -/
noncomputable def monthly_growth_factor (g : ℝ) (month_num : ℕ) : ℝ :=
  (1 + g / 100) ^ ((month_num : ℝ) / 12)

/-- Seasonality multiplier (app.py lines 59-66): 1.0 unless Q1 seasonality
is enabled, in which case 1.15 for months 1-2, 1.05 for month 3, 0.95
otherwise. -/
noncomputable def season_factor (q1_seasonality : Bool) (month_num : ℕ) : ℝ :=
  if q1_seasonality then
    if month_num = 1 ∨ month_num = 2 then 1.15
    else if month_num = 3 then 1.05
    else 0.95
  else 1.0

/-- Corporate revenue `rev_corp` (app.py line 68). -/
noncomputable def rev_corp (d : Drivers) (month_num : ℕ) : ℝ :=
  base_corp * monthly_growth_factor d.corp_growth month_num
    * season_factor d.q1_seasonality month_num
    * retention_factor d.revenue_retention

/-- Fund revenue `rev_fund` (app.py line 71). -/
noncomputable def rev_fund (d : Drivers) (month_num : ℕ) : ℝ :=
  base_fund * monthly_growth_factor d.fund_growth month_num
    * retention_factor d.revenue_retention

/-- Advisory revenue `rev_adv` (app.py line 75); `shock` is the month's draw
of `np.random.normal(1.0, 0.02)`. -/
noncomputable def rev_adv (d : Drivers) (shock : ℝ) (month_num : ℕ) : ℝ :=
  base_adv * monthly_growth_factor d.advisory_growth month_num * shock
    * retention_factor d.revenue_retention

/-- Wage-inflation impact on direct costs (app.py lines 78-80): 1.0 before
month 4, `1 + wage_inflation/100` from month 4 on. -/
noncomputable def inflation_impact (wage_inflation : ℝ) (month_num : ℕ) : ℝ :=
  if 4 ≤ month_num then 1 + wage_inflation / 100 else 1.0

/-- Direct cost magnitude `cost_direct` (app.py line 82). -/
noncomputable def cost_direct (d : Drivers) (month_num : ℕ) : ℝ :=
  base_cost * inflation_impact d.wage_inflation month_num

/-- Operating-expense magnitude `cost_opex` (app.py line 83). -/
noncomputable def cost_opex : ℝ := base_opex * 1.02

/-- One monthly record as appended by app.py lines 85-98. -/
noncomputable def monthRecord (d : Drivers) (shock : ℝ) (month_num : ℕ) :
    MonthlyRecord where
  Month := monthLabel month_num
  Month_Num := month_num
  Rev_Corporate := rev_corp d month_num
  Rev_Fund := rev_fund d month_num
  Rev_Advisory := rev_adv d shock month_num
  Total_Revenue := rev_corp d month_num + rev_fund d month_num + rev_adv d shock month_num
  Direct_Costs := -(cost_direct d month_num)
  OpEx := -cost_opex
  EBITDA := (rev_corp d month_num + rev_fund d month_num + rev_adv d shock month_num)
    - cost_direct d month_num - cost_opex

/-- The forecast engine (app.py lines 37-100): loops over the 12-month
timeline with `month_num = i + 1` and one noise draw per month. -/
noncomputable def generate_forecast (d : Drivers) (noise : ℕ → ℝ) :
    List MonthlyRecord :=
  (List.range 12).map (fun i => monthRecord d (noise i) (i + 1))

/-- The sidebar default driver values (app.py lines 17-33). -/
noncomputable def defaultDrivers : Drivers :=
  { corp_growth := 4.0, fund_growth := 9.0, advisory_growth := 2.0,
    revenue_retention := 95.0, wage_inflation := 4.5, q1_seasonality := true }

@[simp] theorem monthRecord_Month (d : Drivers) (s : ℝ) (m : ℕ) :
    (monthRecord d s m).Month = monthLabel m := rfl

@[simp] theorem monthRecord_Month_Num (d : Drivers) (s : ℝ) (m : ℕ) :
    (monthRecord d s m).Month_Num = m := rfl

@[simp] theorem monthRecord_Rev_Corporate (d : Drivers) (s : ℝ) (m : ℕ) :
    (monthRecord d s m).Rev_Corporate = rev_corp d m := rfl

@[simp] theorem monthRecord_Rev_Fund (d : Drivers) (s : ℝ) (m : ℕ) :
    (monthRecord d s m).Rev_Fund = rev_fund d m := rfl

@[simp] theorem monthRecord_Rev_Advisory (d : Drivers) (s : ℝ) (m : ℕ) :
    (monthRecord d s m).Rev_Advisory = rev_adv d s m := rfl

@[simp] theorem monthRecord_Total_Revenue (d : Drivers) (s : ℝ) (m : ℕ) :
    (monthRecord d s m).Total_Revenue
      = rev_corp d m + rev_fund d m + rev_adv d s m := rfl

@[simp] theorem monthRecord_Direct_Costs (d : Drivers) (s : ℝ) (m : ℕ) :
    (monthRecord d s m).Direct_Costs = -(cost_direct d m) := rfl

@[simp] theorem monthRecord_OpEx (d : Drivers) (s : ℝ) (m : ℕ) :
    (monthRecord d s m).OpEx = -cost_opex := rfl

@[simp] theorem monthRecord_EBITDA (d : Drivers) (s : ℝ) (m : ℕ) :
    (monthRecord d s m).EBITDA
      = (rev_corp d m + rev_fund d m + rev_adv d s m)
        - cost_direct d m - cost_opex := rfl

/-- C5: `generate_forecast` returns exactly 12 records whose `Month_Num`
values are exactly 1,…,12 with no gaps or duplicates, in ascending order. -/
theorem generate_forecast_twelve_months (d : Drivers) (noise : ℕ → ℝ) :
    (generate_forecast d noise).length = 12
    ∧ (generate_forecast d noise).map MonthlyRecord.Month_Num
        = [1, 2, 3, 4, 5, 6, 7, 8, 9, 10, 11, 12] := by
  constructor
  · simp [generate_forecast]
  · simp only [generate_forecast, List.map_map]
    rfl

/-- C8: the operating-expense magnitude is `285/12 * 1.02` for every month,
with no dependence on the month number; the stored `OpEx` field is its
negation. -/
theorem opex_fixed_escalation (d : Drivers) (s : ℝ) (m : ℕ) :
    (monthRecord d s m).OpEx = -(285 / 12 * 1.02) := rfl

/-- C4: every returned record satisfies
`EBITDA = Total_Revenue + Direct_Costs + OpEx`, and with the documented
range `wage_inflation ≥ 0` the stored cost fields are strictly negative. -/
theorem ebitda_identity_and_costs_negative (d : Drivers) (noise : ℕ → ℝ)
    (hw : 0 ≤ d.wage_inflation) :
    ∀ r ∈ generate_forecast d noise,
      r.EBITDA = r.Total_Revenue + r.Direct_Costs + r.OpEx
      ∧ r.Direct_Costs < 0 ∧ r.OpEx < 0 := by
  intro r hr
  obtain ⟨i, hi, rfl⟩ := List.mem_map.1 hr
  refine ⟨by simp only [monthRecord_EBITDA, monthRecord_Total_Revenue,
    monthRecord_Direct_Costs, monthRecord_OpEx]; ring, ?_, ?_⟩
  · have h1 : 0 < cost_direct d (i + 1) := by
      unfold cost_direct inflation_impact base_cost
      have h2 : (0:ℝ) < 1 + d.wage_inflation / 100 := by linarith
      split
      · positivity
      · norm_num
    simp only [monthRecord_Direct_Costs]
    linarith
  · simp only [monthRecord_OpEx]
    unfold cost_opex base_opex
    norm_num

theorem ebitda_identity_and_costs_negative_witness :
    (0:ℝ) ≤ defaultDrivers.wage_inflation
    ∧ ∀ r ∈ generate_forecast defaultDrivers (fun _ => 1),
        r.EBITDA = r.Total_Revenue + r.Direct_Costs + r.OpEx
        ∧ r.Direct_Costs < 0 ∧ r.OpEx < 0 :=
  ⟨by norm_num [defaultDrivers],
   ebitda_identity_and_costs_negative defaultDrivers (fun _ => 1)
     (by norm_num [defaultDrivers])⟩

/-- C6: the corporate seasonality multiplier is 1.0 for every month when the
toggle is off; with it on, 1.15 for months 1-2, 1.05 for month 3, 0.95 from
month 4; the multiplier enters the corporate revenue formula only (the fund
and advisory formulas have no seasonality term). -/
theorem seasonality_multiplier (d : Drivers) (s : ℝ) (m : ℕ) :
    season_factor false m = 1
    ∧ ((m = 1 ∨ m = 2) → season_factor true m = 1.15)
    ∧ (m = 3 → season_factor true m = 1.05)
    ∧ (4 ≤ m → season_factor true m = 0.95)
    ∧ (monthRecord d s m).Rev_Corporate
        = base_corp * monthly_growth_factor d.corp_growth m
          * season_factor d.q1_seasonality m * retention_factor d.revenue_retention
    ∧ (monthRecord d s m).Rev_Fund
        = base_fund * monthly_growth_factor d.fund_growth m
          * retention_factor d.revenue_retention
    ∧ (monthRecord d s m).Rev_Advisory
        = base_adv * monthly_growth_factor d.advisory_growth m * s
          * retention_factor d.revenue_retention := by
  refine ⟨by norm_num [season_factor], ?_, ?_, ?_, rfl, rfl, rfl⟩
  · rintro (rfl | rfl) <;> norm_num [season_factor]
  · rintro rfl
    norm_num [season_factor]
  · intro h4
    have h1 : m ≠ 1 := by omega
    have h2 : m ≠ 2 := by omega
    have h3 : m ≠ 3 := by omega
    simp [season_factor, h1, h2, h3]

theorem seasonality_multiplier_witness :
    season_factor false 1 = 1
    ∧ ((1 = 1 ∨ 1 = 2) → season_factor true 1 = 1.15)
    ∧ (1 = 3 → season_factor true 1 = 1.05)
    ∧ (4 ≤ 1 → season_factor true 1 = 0.95)
    ∧ (monthRecord defaultDrivers 1 1).Rev_Corporate
        = base_corp * monthly_growth_factor defaultDrivers.corp_growth 1
          * season_factor defaultDrivers.q1_seasonality 1
          * retention_factor defaultDrivers.revenue_retention
    ∧ (monthRecord defaultDrivers 1 1).Rev_Fund
        = base_fund * monthly_growth_factor defaultDrivers.fund_growth 1
          * retention_factor defaultDrivers.revenue_retention
    ∧ (monthRecord defaultDrivers 1 1).Rev_Advisory
        = base_adv * monthly_growth_factor defaultDrivers.advisory_growth 1 * 1
          * retention_factor defaultDrivers.revenue_retention :=
  seasonality_multiplier defaultDrivers 1 1

/-- C7: the direct-cost magnitude is the step function
`520/12` for months 1-3 and `520/12 * (1 + wage_inflation/100)` for months
4-12, with the jump exactly at month 4. -/
theorem direct_costs_wage_step (d : Drivers) (s : ℝ) (m : ℕ) :
    (m ≤ 3 → -(monthRecord d s m).Direct_Costs = 520 / 12)
    ∧ (4 ≤ m → -(monthRecord d s m).Direct_Costs
        = 520 / 12 * (1 + d.wage_inflation / 100)) := by
  constructor
  · intro h
    have h4 : ¬ 4 ≤ m := by omega
    simp only [monthRecord_Direct_Costs, neg_neg]
    unfold cost_direct inflation_impact base_cost
    rw [if_neg h4]
    norm_num
  · intro h
    simp only [monthRecord_Direct_Costs, neg_neg]
    unfold cost_direct inflation_impact base_cost
    rw [if_pos h]

theorem direct_costs_wage_step_witness :
    ((3:ℕ) ≤ 3 ∧ -(monthRecord defaultDrivers 1 3).Direct_Costs = 520 / 12)
    ∧ ((4:ℕ) ≤ 4 ∧ -(monthRecord defaultDrivers 1 4).Direct_Costs
        = 520 / 12 * (1 + defaultDrivers.wage_inflation / 100)) :=
  ⟨⟨by norm_num, (direct_costs_wage_step defaultDrivers 1 3).1 (by norm_num)⟩,
   ⟨by norm_num, (direct_costs_wage_step defaultDrivers 1 4).2 (by norm_num)⟩⟩

/-- The fields of a record that do not involve the month's noise draw. -/
def deterministic_fields (r : MonthlyRecord) : String × ℕ × ℝ × ℝ × ℝ × ℝ :=
  (r.Month, r.Month_Num, r.Rev_Corporate, r.Rev_Fund, r.Direct_Costs, r.OpEx)

/-- C3: two runs with identical drivers and the noise source stubbed to 1.0
produce identical record lists; moreover every field other than
`Rev_Advisory` is a function of the drivers alone (identical across
arbitrary noise sources), and the aggregates depend on the noise only
through `Rev_Advisory`. -/
theorem generate_forecast_deterministic (d : Drivers) (n1 n2 : ℕ → ℝ)
    (h1 : ∀ i, n1 i = 1) (h2 : ∀ i, n2 i = 1) :
    generate_forecast d n1 = generate_forecast d n2
    ∧ (∀ m1 m2 : ℕ → ℝ,
        (generate_forecast d m1).map deterministic_fields
          = (generate_forecast d m2).map deterministic_fields)
    ∧ (∀ (s1 s2 : ℝ) (m : ℕ),
        (monthRecord d s1 m).Total_Revenue - (monthRecord d s1 m).Rev_Advisory
          = (monthRecord d s2 m).Total_Revenue - (monthRecord d s2 m).Rev_Advisory
        ∧ (monthRecord d s1 m).EBITDA - (monthRecord d s1 m).Rev_Advisory
          = (monthRecord d s2 m).EBITDA - (monthRecord d s2 m).Rev_Advisory) := by
  refine ⟨?_, ?_, ?_⟩
  · unfold generate_forecast
    apply List.map_congr_left
    intro i _
    rw [h1 i, h2 i]
  · intro m1 m2
    rfl
  · intro s1 s2 m
    constructor <;>
      simp only [monthRecord_Total_Revenue, monthRecord_Rev_Advisory,
        monthRecord_EBITDA] <;> ring

theorem generate_forecast_deterministic_witness :
    (∀ i : ℕ, (fun _ : ℕ => (1:ℝ)) i = 1)
    ∧ (generate_forecast defaultDrivers (fun _ => 1)
          = generate_forecast defaultDrivers (fun _ => 1)
       ∧ (∀ m1 m2 : ℕ → ℝ,
            (generate_forecast defaultDrivers m1).map deterministic_fields
              = (generate_forecast defaultDrivers m2).map deterministic_fields)
       ∧ (∀ (s1 s2 : ℝ) (m : ℕ),
            (monthRecord defaultDrivers s1 m).Total_Revenue
                - (monthRecord defaultDrivers s1 m).Rev_Advisory
              = (monthRecord defaultDrivers s2 m).Total_Revenue
                - (monthRecord defaultDrivers s2 m).Rev_Advisory
            ∧ (monthRecord defaultDrivers s1 m).EBITDA
                - (monthRecord defaultDrivers s1 m).Rev_Advisory
              = (monthRecord defaultDrivers s2 m).EBITDA
                - (monthRecord defaultDrivers s2 m).Rev_Advisory)) :=
  ⟨fun _ => rfl,
   generate_forecast_deterministic defaultDrivers (fun _ => 1) (fun _ => 1)
     (fun _ => rfl) (fun _ => rfl)⟩

/-- C10: the cost fields are a frame with respect to the revenue drivers and
the noise: two runs agreeing on `wage_inflation` produce identical
`Direct_Costs` and `OpEx` columns, and the `OpEx` column is identical across
arbitrary drivers and noise. -/
theorem costs_frame_independence (d1 d2 : Drivers) (n1 n2 : ℕ → ℝ)
    (hw : d1.wage_inflation = d2.wage_inflation) :
    (generate_forecast d1 n1).map (fun r => (r.Direct_Costs, r.OpEx))
      = (generate_forecast d2 n2).map (fun r => (r.Direct_Costs, r.OpEx))
    ∧ ∀ (d3 d4 : Drivers) (n3 n4 : ℕ → ℝ),
        (generate_forecast d3 n3).map MonthlyRecord.OpEx
          = (generate_forecast d4 n4).map MonthlyRecord.OpEx := by
  constructor
  · simp only [generate_forecast, List.map_map]
    apply List.map_congr_left
    intro i _
    simp only [Function.comp_apply, monthRecord_Direct_Costs, monthRecord_OpEx]
    unfold cost_direct
    rw [hw]
  · intro d3 d4 n3 n4
    simp only [generate_forecast, List.map_map]
    apply List.map_congr_left
    intro i _
    simp only [Function.comp_apply, monthRecord_OpEx]

theorem costs_frame_independence_witness :
    defaultDrivers.wage_inflation = defaultDrivers.wage_inflation
    ∧ ((generate_forecast defaultDrivers (fun _ => 1)).map
          (fun r => (r.Direct_Costs, r.OpEx))
        = (generate_forecast defaultDrivers (fun _ => 0)).map
          (fun r => (r.Direct_Costs, r.OpEx))
       ∧ ∀ (d3 d4 : Drivers) (n3 n4 : ℕ → ℝ),
          (generate_forecast d3 n3).map MonthlyRecord.OpEx
            = (generate_forecast d4 n4).map MonthlyRecord.OpEx) :=
  ⟨rfl, costs_frame_independence defaultDrivers defaultDrivers
    (fun _ => 1) (fun _ => 0) rfl⟩

/-- C9 (amended): within the documented driver ranges and with every noise
draw nonnegative, all three revenue fields of every returned record are
nonnegative. -/
theorem revenues_nonneg_of_ranges (d : Drivers) (noise : ℕ → ℝ)
    (hret : 70 ≤ d.revenue_retention) (hret2 : d.revenue_retention ≤ 110)
    (hwage : 0 ≤ d.wage_inflation)
    (hc : -100 < d.corp_growth) (hf : -100 < d.fund_growth)
    (ha : -100 < d.advisory_growth)
    (hn : ∀ i, 0 ≤ noise i) :
    ∀ r ∈ generate_forecast d noise,
      0 ≤ r.Rev_Corporate ∧ 0 ≤ r.Rev_Fund ∧ 0 ≤ r.Rev_Advisory := by
  intro r hr
  obtain ⟨i, hi, rfl⟩ := List.mem_map.1 hr
  have hrf : 0 ≤ retention_factor d.revenue_retention := by
    unfold retention_factor
    linarith
  have hsf : 0 ≤ season_factor d.q1_seasonality (i + 1) := by
    unfold season_factor
    split
    · split
      · norm_num
      · split <;> norm_num
    · norm_num
  have hbcorp : (0:ℝ) < 1 + d.corp_growth / 100 := by linarith
  have hbfund : (0:ℝ) < 1 + d.fund_growth / 100 := by linarith
  have hbadv : (0:ℝ) < 1 + d.advisory_growth / 100 := by linarith
  have hgc : 0 < monthly_growth_factor d.corp_growth (i + 1) :=
    Real.rpow_pos_of_pos hbcorp _
  have hgf : 0 < monthly_growth_factor d.fund_growth (i + 1) :=
    Real.rpow_pos_of_pos hbfund _
  have hga : 0 < monthly_growth_factor d.advisory_growth (i + 1) :=
    Real.rpow_pos_of_pos hbadv _
  have hb1 : (0:ℝ) ≤ base_corp := by unfold base_corp; norm_num
  have hb2 : (0:ℝ) ≤ base_fund := by unfold base_fund; norm_num
  have hb3 : (0:ℝ) ≤ base_adv := by unfold base_adv; norm_num
  refine ⟨?_, ?_, ?_⟩
  · simp only [monthRecord_Rev_Corporate]
    unfold rev_corp
    exact mul_nonneg (mul_nonneg (mul_nonneg hb1 hgc.le) hsf) hrf
  · simp only [monthRecord_Rev_Fund]
    unfold rev_fund
    exact mul_nonneg (mul_nonneg hb2 hgf.le) hrf
  · simp only [monthRecord_Rev_Advisory]
    unfold rev_adv
    exact mul_nonneg (mul_nonneg (mul_nonneg hb3 hga.le) (hn i)) hrf

theorem revenues_nonneg_of_ranges_witness :
    ((70:ℝ) ≤ defaultDrivers.revenue_retention
      ∧ defaultDrivers.revenue_retention ≤ 110
      ∧ (0:ℝ) ≤ defaultDrivers.wage_inflation
      ∧ (-100:ℝ) < defaultDrivers.corp_growth
      ∧ (-100:ℝ) < defaultDrivers.fund_growth
      ∧ (-100:ℝ) < defaultDrivers.advisory_growth
      ∧ (∀ i : ℕ, (0:ℝ) ≤ (fun _ : ℕ => (1:ℝ)) i))
    ∧ ∀ r ∈ generate_forecast defaultDrivers (fun _ => 1),
        0 ≤ r.Rev_Corporate ∧ 0 ≤ r.Rev_Fund ∧ 0 ≤ r.Rev_Advisory :=
  ⟨⟨by norm_num [defaultDrivers], by norm_num [defaultDrivers],
    by norm_num [defaultDrivers], by norm_num [defaultDrivers],
    by norm_num [defaultDrivers], by norm_num [defaultDrivers],
    fun _ => by norm_num⟩,
   revenues_nonneg_of_ranges defaultDrivers (fun _ => 1)
     (by norm_num [defaultDrivers]) (by norm_num [defaultDrivers])
     (by norm_num [defaultDrivers]) (by norm_num [defaultDrivers])
     (by norm_num [defaultDrivers]) (by norm_num [defaultDrivers])
     (fun _ => by norm_num)⟩

/-- C9 (counterexample): with the default drivers, all inside the documented
ranges, and a noise sequence whose draws are -1.0 (a value the unbounded
normal source can produce), the first returned record has strictly negative
advisory revenue, so the claim as stated fails. -/
theorem revenues_nonneg_counterexample :
    ∃ r ∈ generate_forecast defaultDrivers (fun _ => -1),
      r.Rev_Advisory < 0 := by
  refine ⟨monthRecord defaultDrivers (-1) 1, ?_, ?_⟩
  · unfold generate_forecast
    exact List.mem_map.2 ⟨0, by decide, rfl⟩
  · simp only [monthRecord_Rev_Advisory]
    unfold rev_adv
    have h1 : (0:ℝ) < base_adv := by unfold base_adv; norm_num
    have h2 : (0:ℝ) < monthly_growth_factor defaultDrivers.advisory_growth 1 := by
      apply Real.rpow_pos_of_pos
      norm_num [defaultDrivers]
    have h3 : (0:ℝ) < retention_factor defaultDrivers.revenue_retention := by
      unfold retention_factor
      norm_num [defaultDrivers]
    have h4 : base_adv * monthly_growth_factor defaultDrivers.advisory_growth 1
        * (-1:ℝ) < 0 :=
      mul_neg_of_pos_of_neg (mul_pos h1 h2) (by norm_num)
    exact mul_neg_of_neg_of_pos h4 h3

/-- IEEE float values as a pandas column operation produces them: a finite
real, a signed infinity, or NaN. -/
inductive PandasFloat where
  | finite (x : ℝ)
  | posInf
  | negInf
  | nan

/-- IEEE float division as numpy/pandas performs it: dividing by zero yields
a signed infinity (or NaN for 0/0) instead of raising an error. -/
noncomputable def floatDiv (a b : ℝ) : PandasFloat :=
  if b = 0 then
    if a = 0 then PandasFloat.nan
    else if 0 < a then PandasFloat.posInf
    else PandasFloat.negInf
  else PandasFloat.finite (a / b)

/-- The derived EBITDA margin column of app.py line 125:
`(EBITDA / Total_Revenue) * 100` under pandas (IEEE) division semantics;
multiplying an infinity or NaN by 100 leaves it unchanged. -/
noncomputable def EBITDA_Margin (r : MonthlyRecord) : PandasFloat :=
  match floatDiv r.EBITDA r.Total_Revenue with
  | PandasFloat.finite x => PandasFloat.finite (x * 100)
  | v => v

/-- Drivers with zero revenue retention: every revenue line, hence the total
revenue, of every month is zero. -/
noncomputable def zeroRetentionDrivers : Drivers :=
  { defaultDrivers with revenue_retention := 0 }

/-- C2: on a record whose total revenue is zero, the unguarded derivation of
app.py line 125 produces negative infinity (the EBITDA there is the negated
cost total, which is strictly negative), not an explicit undefined marker. -/
theorem ebitda_margin_zero_revenue_gives_infinity :
    ∃ r ∈ generate_forecast zeroRetentionDrivers (fun _ => 1),
      r.Total_Revenue = 0 ∧ EBITDA_Margin r = PandasFloat.negInf := by
  have htot : (monthRecord zeroRetentionDrivers 1 1).Total_Revenue = 0 := by
    simp [rev_corp, rev_fund, rev_adv, retention_factor, zeroRetentionDrivers]
  have hebitda : (monthRecord zeroRetentionDrivers 1 1).EBITDA < 0 := by
    simp only [monthRecord_EBITDA]
    have h0 : rev_corp zeroRetentionDrivers 1 = 0 := by
      simp [rev_corp, retention_factor, zeroRetentionDrivers]
    have h1 : rev_fund zeroRetentionDrivers 1 = 0 := by
      simp [rev_fund, retention_factor, zeroRetentionDrivers]
    have h2 : rev_adv zeroRetentionDrivers 1 1 = 0 := by
      simp [rev_adv, retention_factor, zeroRetentionDrivers]
    rw [h0, h1, h2]
    have h3 : (0:ℝ) < cost_direct zeroRetentionDrivers 1 := by
      unfold cost_direct inflation_impact base_cost
      norm_num
    have h4 : (0:ℝ) < cost_opex := by
      unfold cost_opex base_opex
      norm_num
    linarith
  refine ⟨monthRecord zeroRetentionDrivers 1 1, ?_, htot, ?_⟩
  · unfold generate_forecast
    exact List.mem_map.2 ⟨0, by decide, rfl⟩
  · have hdiv : floatDiv (monthRecord zeroRetentionDrivers 1 1).EBITDA
        (monthRecord zeroRetentionDrivers 1 1).Total_Revenue
        = PandasFloat.negInf := by
      unfold floatDiv
      rw [htot, if_pos rfl, if_neg (ne_of_lt hebitda),
        if_neg (not_lt.2 hebitda.le)]
    unfold EBITDA_Margin
    rw [hdiv]

open Classical in
/-- CPython float power semantics for `b ** e`: the real power when the base
is nonnegative or the exponent is integral, otherwise the principal complex
power (CPython silently converts a negative base with fractional exponent to
complex, raising no error). -/
noncomputable def pyPow (b e : ℝ) : ℂ :=
  if 0 ≤ b ∨ ∃ n : ℤ, (n : ℝ) = e then ((b ^ e : ℝ) : ℂ)
  else (b : ℂ) ^ (e : ℂ)

/-- Corporate revenue of app.py line 68 under CPython power semantics: when
`1 + corp_growth/100 < 0` the growth factor of line 57, hence the revenue,
is a complex number. -/
noncomputable def rev_corp_py (d : Drivers) (month_num : ℕ) : ℂ :=
  (base_corp : ℂ) * pyPow (1 + d.corp_growth / 100) ((month_num : ℝ) / 12)
    * ((season_factor d.q1_seasonality month_num : ℝ) : ℂ)
    * ((retention_factor d.revenue_retention : ℝ) : ℂ)

/-- The domain-error scenario of the spec: `corporate_growth_pct = -150`,
all other drivers at their defaults. -/
noncomputable def domainErrorDrivers : Drivers :=
  { defaultDrivers with corp_growth := -150.0 }

theorem ofReal_mul_im4 (a s r : ℝ) (Z : ℂ) :
    ((a : ℂ) * Z * (s : ℂ) * (r : ℂ)).im = a * Z.im * s * r := by
  simp [Complex.mul_im, Complex.mul_re]

theorem im_pos_of_cpow_neg_half :
    0 < (((-(1/2) : ℝ) : ℂ) ^ (((1/12 : ℝ)) : ℂ)).im := by
  have hz : ((-(1/2) : ℝ) : ℂ) ≠ 0 := by
    rw [Complex.ofReal_ne_zero]
    norm_num
  rw [Complex.cpow_def_of_ne_zero hz, Complex.exp_im]
  have him : (Complex.log ((-(1/2) : ℝ) : ℂ) * (((1/12 : ℝ)) : ℂ)).im
      = Real.pi / 12 := by
    rw [Complex.mul_im, Complex.log_im,
      Complex.arg_ofReal_of_neg (by norm_num : (-(1/2) : ℝ) < 0)]
    simp
    ring
  rw [him]
  apply mul_pos (Real.exp_pos _)
  apply Real.sin_pos_of_pos_of_lt_pi
  · positivity
  · linarith [Real.pi_pos]

/-- C1: with `corporate_growth_pct = -150` the engine does not report any
error; under CPython power semantics the month-1 corporate revenue it stores
is a complex number with nonzero imaginary part, i.e. a record with a
complex revenue value is produced instead of a reported DomainError. -/
theorem domain_error_returns_complex_record :
    (rev_corp_py domainErrorDrivers 1).im ≠ 0 := by
  have hb : 1 + domainErrorDrivers.corp_growth / 100 = -(1/2) := by
    norm_num [domainErrorDrivers, defaultDrivers]
  have hcond : ¬ (0 ≤ (-(1/2) : ℝ) ∨ ∃ n : ℤ, (n : ℝ) = ((1/12 : ℝ))) := by
    push_neg
    refine ⟨by norm_num, ?_⟩
    intro n h
    have h12 : ((12 * n : ℤ) : ℝ) = 1 := by
      push_cast
      linarith
    have h13 : (12 * n : ℤ) = 1 := by exact_mod_cast h12
    omega
  have hsf : season_factor domainErrorDrivers.q1_seasonality 1 = 1.15 := by
    norm_num [domainErrorDrivers, defaultDrivers, season_factor]
  have hrf : retention_factor domainErrorDrivers.revenue_retention
      = 95 / 100 := by
    norm_num [domainErrorDrivers, defaultDrivers, retention_factor]
  unfold rev_corp_py
  rw [hb, show ((1:ℕ) : ℝ) / 12 = ((1/12 : ℝ)) by norm_num]
  unfold pyPow
  rw [if_neg hcond, ofReal_mul_im4, hsf, hrf]
  have hbc : (0:ℝ) < base_corp := by unfold base_corp; norm_num
  have hpos : (0:ℝ) < base_corp
      * (((-(1/2) : ℝ) : ℂ) ^ (((1/12 : ℝ)) : ℂ)).im * 1.15 * (95 / 100) := by
    have h1 : (0:ℝ) < 1.15 := by norm_num
    have h2 : (0:ℝ) < 95 / 100 := by norm_num
    exact mul_pos (mul_pos (mul_pos hbc im_pos_of_cpow_neg_half) h1) h2
  exact ne_of_gt hpos
